import Mathlib

/-!
Verification of the captive-portal login engine (`scripts/captive_portal.py`).

The Python code is shallowly embedded:
* Python `dict`s become insertion-ordered association lists (`pyInsert`
  mirrors `d[k] = v`, `pySetdefault` mirrors `d.setdefault`, `pyLookup`
  mirrors `d.get`).
* The streaming `html.parser.HTMLParser` callbacks become a step function
  over an explicit event stream (`HtmlEvent`): the tokenizer itself is not
  modelled, documents are represented by the event list the tokenizer
  would produce.
* Network I/O is modelled by an environment record (`NetEnv`) holding the
  responses the portal would return; `requests` exceptions become `none`
  values.
* The `urllib.parse` helpers used by the code (`urlparse`, `parse_qs`,
  `urljoin`) are re-implemented from CPython's `urllib/parse.py`,
  restricted to what the engine exercises: the IPv6-bracket and netloc
  validation raises are omitted, and percent-decoding assumes ASCII input
  around the `%` escapes (decoded byte runs are UTF-8 decoded, invalid
  sequences become U+FFFD).
-/

namespace CaptivePortal

/-- Attribute lists as delivered by the HTML tokenizer: attribute values may
be absent (`None` in Python). -/
abbrev Attrs := List (String × Option String)

/-- String-keyed, string-valued Python dict. -/
abbrev StrDict := List (String × String)

/-- Python `d[k] = v`: replace the value at the first matching key in place,
otherwise append the new entry at the end (dicts preserve insertion order). -/
def pyInsert {α β : Type} [DecidableEq α] : List (α × β) → α → β → List (α × β)
  | [], k, v => [(k, v)]
  | (k', v') :: rest, k, v =>
    if k' = k then (k, v) :: rest else (k', v') :: pyInsert rest k v

/-- Python `d.get(k)`. -/
def pyLookup {α β : Type} [DecidableEq α] : List (α × β) → α → Option β
  | [], _ => none
  | (k', v') :: rest, k => if k' = k then some v' else pyLookup rest k

/-- Update the value stored at a key, leaving the dict unchanged when the key
is absent (the Python code only ever indexes keys it has inserted). -/
def pyModify {α β : Type} [DecidableEq α] : List (α × β) → α → (β → β) → List (α × β)
  | [], _, _ => []
  | (k', v') :: rest, k, f =>
    if k' = k then (k', f v') :: rest else (k', v') :: pyModify rest k f

/-- Python `d.setdefault(k, v)`. -/
def pySetdefault {α β : Type} [DecidableEq α] (d : List (α × β)) (k : α) (v : β) :
    List (α × β) :=
  if (pyLookup d k).isSome then d else d ++ [(k, v)]

/-- Python `str.lower()` (ASCII case mapping, which is all the engine needs). -/
def pyLower (s : String) : String := ⟨s.toList.map Char.toLower⟩

/-- Python `str.strip()` restricted to ASCII whitespace. -/
def pyStrip (s : String) : String :=
  ⟨((s.toList.dropWhile Char.isWhitespace).reverse.dropWhile Char.isWhitespace).reverse⟩

/-- Python `pat in s` substring containment. -/
def strContains (s pat : String) : Bool := decide (pat.toList <:+: s.toList)

/-- Python `{key: value for key, value in attrs if key}`. -/
def mkAttrsDict (attrs : Attrs) : Attrs :=
  (attrs.filter (fun kv => kv.1 ≠ "")).foldl (fun d kv => pyInsert d kv.1 kv.2) []

/-- Python `attrs_dict.get(k)` flattened: `none` covers both a missing
attribute and an attribute stored with value `None`. -/
def pyGetAttr (d : Attrs) (k : String) : Option String :=
  match pyLookup d k with
  | some (some s) => some s
  | _ => none

/-- Python `attrs_dict.get(k) or ""`. -/
def pyGetOrEmpty (d : Attrs) (k : String) : String := (pyGetAttr d k).getD ""

/-- Python `attrs_dict.get(k) or dflt`: the default also replaces an empty
string since `""` is falsy. -/
def pyGetOr (d : Attrs) (k : String) (dflt : String) : String :=
  match pyGetAttr d k with
  | some s => if s = "" then dflt else s
  | none => dflt

/-- Token-stream events fed to the scanner, mirroring the
`handle_starttag` / `handle_endtag` / `handle_data` callbacks. -/
inductive HtmlEvent : Type
  | startTag (tag : String) (attrs : Attrs)
  | endTag (tag : String)
  | data (text : String)
deriving DecidableEq

/-- Constructor arguments of `CaptivePortalFormParser.__init__`, with
`button_text_contains` already normalised by `(b or "").lower().strip()`. -/
structure ScanConfig : Type where
  form_id : Option String
  action_contains : Option String
  button_text_contains : String
deriving DecidableEq

/-- Normalisation performed by `CaptivePortalFormParser.__init__`. -/
def mkScanConfig (form_id action_contains button_text_contains : Option String) :
    ScanConfig :=
  { form_id := form_id
    action_contains := action_contains
    button_text_contains := pyStrip (pyLower (button_text_contains.getD "")) }

/-- Mutable state of `CaptivePortalFormParser`. -/
structure ScanState : Type where
  active_form : Option Attrs
  active_form_index : Option Nat
  forms : List Attrs
  inputs : List (Nat × StrDict)
  form_submit_match : List (Nat × Bool)
  capture_button_text_for_form : Option Nat
  form_counter : Nat
deriving DecidableEq

/-- Parser state right after `__init__`. -/
def initState : ScanState :=
  { active_form := none
    active_form_index := none
    forms := []
    inputs := []
    form_submit_match := []
    capture_button_text_for_form := none
    form_counter := 0 }

/-- `CaptivePortalFormParser._matches_form`. -/
def matches_form (cfg : ScanConfig) (attrs_dict : Attrs) : Bool :=
  (match cfg.form_id with
   | some fid => fid ≠ "" && pyGetAttr attrs_dict "id" == some fid
   | none => false)
  || (match cfg.action_contains with
      | some ac => ac ≠ "" && strContains (pyGetOrEmpty attrs_dict "action") ac
      | none => false)

/-- `CaptivePortalFormParser._mark_submit_match`. -/
def mark_submit_match (cfg : ScanConfig) (s : ScanState) (text : String)
    (form_index : Option Nat) : ScanState :=
  if cfg.button_text_contains = "" then s
  else
    match (match form_index with | some i => some i | none => s.active_form_index) with
    | none => s
    | some idx =>
      if strContains (pyLower text) cfg.button_text_contains then
        { s with form_submit_match := pyInsert s.form_submit_match idx true }
      else s

/-- `CaptivePortalFormParser.handle_starttag`. -/
def handle_starttag (cfg : ScanConfig) (s : ScanState) (tag : String) (attrs : Attrs) :
    ScanState :=
  let attrs_dict := mkAttrsDict attrs
  if tag = "form" then
    if matches_form cfg attrs_dict then
      { s with
        active_form := some attrs_dict
        active_form_index := some s.form_counter
        forms := s.forms ++ [attrs_dict]
        inputs := pyInsert s.inputs s.form_counter []
        form_submit_match := pyInsert s.form_submit_match s.form_counter false
        form_counter := s.form_counter + 1 }
    else s
  else if tag = "button" then
    if s.active_form.isSome then
      let button_type := pyLower (pyGetOr attrs_dict "type" "submit")
      if button_type = "submit" then
        { s with capture_button_text_for_form := s.active_form_index }
      else s
    else s
  else if tag = "input" then
    if s.active_form.isSome then
      let value := pyGetOrEmpty attrs_dict "value"
      let input_type := pyLower (pyGetOrEmpty attrs_dict "type")
      let s1 :=
        if input_type = "submit" || input_type = "button" then
          mark_submit_match cfg s value none
        else s
      match pyGetAttr attrs_dict "name" with
      | some n =>
        if n ≠ "" ∧ input_type ≠ "submit" then
          { s1 with
            inputs := pyModify s1.inputs (s1.form_counter - 1)
              (fun d => pyInsert d n value) }
        else s1
      | none => s1
    else s
  else s

/-- `CaptivePortalFormParser.handle_endtag`. -/
def handle_endtag (s : ScanState) (tag : String) : ScanState :=
  if tag = "button" then { s with capture_button_text_for_form := none }
  else if tag = "form" then
    { s with
      capture_button_text_for_form := none
      active_form := none
      active_form_index := none }
  else s

/-- `CaptivePortalFormParser.handle_data`. -/
def handle_data (cfg : ScanConfig) (s : ScanState) (text : String) : ScanState :=
  match s.capture_button_text_for_form with
  | none => s
  | some i => mark_submit_match cfg s text (some i)

/-- Dispatch one tokenizer event to the matching callback. -/
def applyEvent (cfg : ScanConfig) (s : ScanState) : HtmlEvent → ScanState
  | .startTag tag attrs => handle_starttag cfg s tag attrs
  | .endTag tag => handle_endtag s tag
  | .data text => handle_data cfg s text

/-- `parser.feed(html)`, with the document given as its event stream. -/
def feed (cfg : ScanConfig) (s : ScanState) (events : List HtmlEvent) : ScanState :=
  events.foldl (applyEvent cfg) s

/-- Whether an event is a `<form>` start tag satisfying `_matches_form`, the
only kind of event that re-activates accumulation. -/
def isMatchingFormStart (cfg : ScanConfig) : HtmlEvent → Bool
  | .startTag tag attrs =>
    if tag = "form" then matches_form cfg (mkAttrsDict attrs) else false
  | _ => false

/-! Model of the `urllib.parse` helpers the engine calls, following CPython
`urllib/parse.py`. Strings are processed as `List Char`. -/

/-- Python `s.split(c, 1)`: `none` when the separator does not occur. -/
def splitFirstChar (c : Char) : List Char → Option (List Char × List Char)
  | [] => none
  | x :: rest =>
    if x = c then some ([], rest)
    else
      match splitFirstChar c rest with
      | none => none
      | some (a, b) => some (x :: a, b)

/-- Python `s.split(c)` (always at least one piece). -/
def splitAllChar (c : Char) : List Char → List (List Char)
  | [] => [[]]
  | x :: rest =>
    let r := splitAllChar c rest
    if x = c then [] :: r
    else
      match r with
      | [] => [[x]]
      | h :: t => (x :: h) :: t

/-- Hex digit value, as accepted by `urllib.parse.unquote`. -/
def hexVal (c : Char) : Option Nat :=
  if '0' ≤ c ∧ c ≤ '9' then some (c.toNat - '0'.toNat)
  else if 'a' ≤ c ∧ c ≤ 'f' then some (c.toNat - 'a'.toNat + 10)
  else if 'A' ≤ c ∧ c ≤ 'F' then some (c.toNat - 'A'.toNat + 10)
  else none

/-- Collect a maximal run of `%XX` escapes into the bytes they denote,
returning the remaining characters. -/
def collectPct : List Char → List Nat × List Char
  | '%' :: a :: b :: rest =>
    match hexVal a, hexVal b with
    | some ha, some hb =>
      let (bs, r) := collectPct rest
      ((ha * 16 + hb) :: bs, r)
    | _, _ => ([], '%' :: a :: b :: rest)
  | l => ([], l)

/-- Unicode replacement character used by `errors="replace"` decoding. -/
def replChar : Char := Char.ofNat 0xFFFD

/-- Second-byte range of a UTF-8 sequence, depending on the lead byte. -/
def utf8Cont2Ok (b b2 : Nat) : Bool :=
  if b = 0xE0 then 0xA0 ≤ b2 ∧ b2 ≤ 0xBF
  else if b = 0xED then 0x80 ≤ b2 ∧ b2 ≤ 0x9F
  else if b = 0xF0 then 0x90 ≤ b2 ∧ b2 ≤ 0xBF
  else if b = 0xF4 then 0x80 ≤ b2 ∧ b2 ≤ 0x8F
  else 0x80 ≤ b2 ∧ b2 ≤ 0xBF

/-- UTF-8 decoding with replacement: an invalid or truncated sequence yields
U+FFFD for its lead byte and decoding resumes at the next byte. -/
def decodeUtf8Aux : Nat → List Nat → List Char
  | 0, _ => []
  | _ + 1, [] => []
  | fuel + 1, b :: rest =>
    if b < 0x80 then Char.ofNat b :: decodeUtf8Aux fuel rest
    else if 0xC2 ≤ b ∧ b ≤ 0xDF then
      match rest with
      | b2 :: rest2 =>
        if 0x80 ≤ b2 ∧ b2 ≤ 0xBF then
          Char.ofNat ((b - 0xC0) * 64 + (b2 - 0x80)) :: decodeUtf8Aux fuel rest2
        else replChar :: decodeUtf8Aux fuel rest
      | [] => [replChar]
    else if 0xE0 ≤ b ∧ b ≤ 0xEF then
      match rest with
      | b2 :: b3 :: rest3 =>
        if utf8Cont2Ok b b2 ∧ 0x80 ≤ b3 ∧ b3 ≤ 0xBF then
          Char.ofNat ((b - 0xE0) * 4096 + (b2 - 0x80) * 64 + (b3 - 0x80)) ::
            decodeUtf8Aux fuel rest3
        else replChar :: decodeUtf8Aux fuel rest
      | _ => replChar :: decodeUtf8Aux fuel rest
    else if 0xF0 ≤ b ∧ b ≤ 0xF4 then
      match rest with
      | b2 :: b3 :: b4 :: rest4 =>
        if utf8Cont2Ok b b2 ∧ 0x80 ≤ b3 ∧ b3 ≤ 0xBF ∧ 0x80 ≤ b4 ∧ b4 ≤ 0xBF then
          Char.ofNat
              ((b - 0xF0) * 262144 + (b2 - 0x80) * 4096 + (b3 - 0x80) * 64 + (b4 - 0x80)) ::
            decodeUtf8Aux fuel rest4
        else replChar :: decodeUtf8Aux fuel rest
      | _ => replChar :: decodeUtf8Aux fuel rest
    else replChar :: decodeUtf8Aux fuel rest

/-- Worker for `pyUnquote`; the fuel is an upper bound on the input length. -/
def unquoteAux : Nat → List Char → List Char
  | 0, _ => []
  | _ + 1, [] => []
  | fuel + 1, c :: rest =>
    if c = '%' then
      match collectPct (c :: rest) with
      | ([], _) => c :: unquoteAux fuel rest
      | (bs, r) => decodeUtf8Aux bs.length bs ++ unquoteAux fuel r
    else c :: unquoteAux fuel rest

/-- Python `urllib.parse.unquote(s)` (UTF-8, `errors="replace"`). -/
def pyUnquote (s : String) : String := ⟨unquoteAux s.toList.length s.toList⟩

/-- Python `s.replace("+", " ")`, as done by `parse_qsl`. -/
def plusToSpace (s : String) : String :=
  ⟨s.toList.map (fun c => if c = '+' then ' ' else c)⟩

/-- Python `urllib.parse.parse_qsl(qs)` with default arguments: empty pairs
and pairs without `=` or with an empty value are skipped. -/
def parse_qsl (qs : String) : List (String × String) :=
  let pairs := if qs = "" then [] else splitAllChar '&' qs.toList
  pairs.filterMap (fun nv =>
    if nv = [] then none
    else
      match splitFirstChar '=' nv with
      | none => none
      | some (n, v) =>
        if v = [] then none
        else some (pyUnquote (plusToSpace ⟨n⟩), pyUnquote (plusToSpace ⟨v⟩)))

/-- Python `urllib.parse.parse_qs(qs)`: group the pair list by name,
preserving first-occurrence order. -/
def parse_qs (qs : String) : List (String × List String) :=
  (parse_qsl qs).foldl (fun d nv =>
    match pyLookup d nv.1 with
    | some vs => pyInsert d nv.1 (vs ++ [nv.2])
    | none => d ++ [(nv.1, [nv.2])]) []

/-- Result of `urllib.parse.urlsplit`. -/
structure UrlSplitRes : Type where
  scheme : String
  netloc : String
  path : String
  query : String
  fragment : String
deriving DecidableEq

/-- Result of `urllib.parse.urlparse`. -/
structure UrlParseRes : Type where
  scheme : String
  netloc : String
  path : String
  params : String
  query : String
  fragment : String
deriving DecidableEq

/-- Characters WHATWG classifies as C0 control or space. -/
def isC0OrSpace (c : Char) : Bool := c.toNat ≤ 0x20

/-- Removal of `_UNSAFE_URL_BYTES_TO_REMOVE` (tab, CR, LF). -/
def removeUnsafeUrlChars (l : List Char) : List Char :=
  l.filter (fun c => ¬ (c = '\t' ∨ c = '\r' ∨ c = '\n'))

/-- Characters allowed in a URL scheme after the initial letter. -/
def isSchemeChar (c : Char) : Bool := c.isAlpha || c.isDigit || c = '+' || c = '-' || c = '.'

/-- Python `_splitnetloc`: cut the netloc at the first `/`, `?` or `#`. -/
def splitNetloc (l : List Char) : List Char × List Char :=
  (l.takeWhile (fun c => ¬ (c = '/' ∨ c = '?' ∨ c = '#')),
   l.dropWhile (fun c => ¬ (c = '/' ∨ c = '?' ∨ c = '#')))

/-- Python `urllib.parse.urlsplit(url, scheme, allow_fragments)`; the IPv6
bracket and netloc validation raises are not modelled. -/
def urlsplit (url0 scheme0 : String) (allow_fragments : Bool) : UrlSplitRes :=
  let url := removeUnsafeUrlChars (url0.toList.dropWhile isC0OrSpace)
  let dscheme := removeUnsafeUrlChars
    (((scheme0.toList.dropWhile isC0OrSpace).reverse.dropWhile isC0OrSpace).reverse)
  let schemeUrl : List Char × List Char :=
    match splitFirstChar ':' url with
    | some (pre, post) =>
      if pre ≠ [] ∧ (pre.headD ' ').isAlpha ∧ pre.all isSchemeChar then
        (pre.map Char.toLower, post)
      else (dscheme, url)
    | none => (dscheme, url)
  let scheme := schemeUrl.1
  let url := schemeUrl.2
  let netlocUrl : List Char × List Char :=
    if url.take 2 = ['/', '/'] then splitNetloc (url.drop 2) else ([], url)
  let netloc := netlocUrl.1
  let url := netlocUrl.2
  let urlFrag : List Char × List Char :=
    if allow_fragments ∧ url.contains '#' then
      match splitFirstChar '#' url with
      | some (a, b) => (a, b)
      | none => (url, [])
    else (url, [])
  let url := urlFrag.1
  let fragment := urlFrag.2
  let urlQuery : List Char × List Char :=
    if url.contains '?' then
      match splitFirstChar '?' url with
      | some (a, b) => (a, b)
      | none => (url, [])
    else (url, [])
  { scheme := ⟨scheme⟩
    netloc := ⟨netloc⟩
    path := ⟨urlQuery.1⟩
    query := ⟨urlQuery.2⟩
    fragment := ⟨fragment⟩ }

/-- `uses_relative` table from `urllib/parse.py`. -/
def uses_relative : List String :=
  ["", "ftp", "http", "gopher", "nntp", "imap", "wais", "file", "https", "shttp",
   "mms", "prospero", "rtsp", "rtspu", "sftp", "svn", "svn+ssh", "ws", "wss"]

/-- `uses_netloc` table from `urllib/parse.py`. -/
def uses_netloc : List String :=
  ["", "ftp", "http", "gopher", "nntp", "telnet", "imap", "wais", "file", "mms",
   "https", "shttp", "snews", "prospero", "rtsp", "rtspu", "rsync", "svn",
   "svn+ssh", "sftp", "nfs", "ftps", "tftp", "ws", "wss"]

/-- `uses_params` table from `urllib/parse.py`. -/
def uses_params : List String :=
  ["", "ftp", "hdl", "prospero", "http", "imap", "https", "shttp", "rtsp",
   "rtspu", "sip", "sips", "mms", "sftp", "tel"]

/-- Python `_splitparams`: split `;params` off the last path segment (only
called when the path contains a `;`). -/
def splitParams (url : List Char) : List Char × List Char :=
  if url.contains '/' then
    let lastSeg := (url.reverse.takeWhile (fun c => c ≠ '/')).reverse
    let head := url.take (url.length - lastSeg.length)
    match splitFirstChar ';' lastSeg with
    | some (a, b) => (head ++ a, b)
    | none => (url, [])
  else
    match splitFirstChar ';' url with
    | some (a, b) => (a, b)
    | none => (url, [])

/-- Python `urllib.parse.urlparse(url, scheme, allow_fragments)`. -/
def urlparse (url scheme0 : String) (allow_fragments : Bool) : UrlParseRes :=
  let sr := urlsplit url scheme0 allow_fragments
  if sr.scheme ∈ uses_params ∧ sr.path.toList.contains ';' then
    let pp := splitParams sr.path.toList
    { scheme := sr.scheme, netloc := sr.netloc, path := ⟨pp.1⟩, params := ⟨pp.2⟩,
      query := sr.query, fragment := sr.fragment }
  else
    { scheme := sr.scheme, netloc := sr.netloc, path := sr.path, params := "",
      query := sr.query, fragment := sr.fragment }

/-- Python `urllib.parse.urlunsplit`. -/
def urlunsplit (scheme netloc path query fragment : String) : String :=
  let url := path.toList
  let url :=
    if netloc ≠ "" ∨ (url ≠ [] ∧ url.take 2 = ['/', '/']) then
      let url1 := if url ≠ [] ∧ url.take 1 ≠ ['/'] then '/' :: url else url
      '/' :: '/' :: (netloc.toList ++ url1)
    else url
  let url := if scheme ≠ "" then scheme.toList ++ ':' :: url else url
  let url := if query ≠ "" then url ++ '?' :: query.toList else url
  let url := if fragment ≠ "" then url ++ '#' :: fragment.toList else url
  ⟨url⟩

/-- Python `urllib.parse.urlunparse`. -/
def urlunparse (scheme netloc path params query fragment : String) : String :=
  let p := if params ≠ "" then path ++ ";" ++ params else path
  urlunsplit scheme netloc p query fragment

/-- Python `segments[1:-1] = filter(None, segments[1:-1])` in `urljoin`. -/
def filterMiddle (l : List (List Char)) : List (List Char) :=
  match l with
  | [] => []
  | [x] => [x]
  | x :: xs => x :: ((xs.dropLast.filter (fun s => s ≠ [])) ++ [xs.getLastD []])

/-- Python `urllib.parse.urljoin(base, url)`. -/
def urljoin (base url : String) : String :=
  if base = "" then url
  else if url = "" then base
  else
    let b := urlparse base "" true
    let u := urlparse url b.scheme true
    if u.scheme ≠ b.scheme ∨ u.scheme ∉ uses_relative then url
    else if u.scheme ∈ uses_netloc ∧ u.netloc ≠ "" then
      urlunparse u.scheme u.netloc u.path u.params u.query u.fragment
    else
      let netloc := if u.scheme ∈ uses_netloc then b.netloc else u.netloc
      if u.path = "" ∧ u.params = "" then
        let query := if u.query = "" then b.query else u.query
        urlunparse u.scheme netloc b.path b.params query u.fragment
      else
        let base_parts := splitAllChar '/' b.path.toList
        let base_parts :=
          if base_parts.getLast? ≠ some [] then base_parts.dropLast else base_parts
        let psegs := splitAllChar '/' u.path.toList
        let segments :=
          if u.path.toList.take 1 = ['/'] then psegs
          else filterMiddle (base_parts ++ psegs)
        let resolved := segments.foldl (fun acc seg =>
          if seg = ['.', '.'] then acc.dropLast
          else if seg = ['.'] then acc
          else acc ++ [seg]) ([] : List (List Char))
        let resolved :=
          if segments.getLast? = some ['.'] ∨ segments.getLast? = some ['.', '.'] then
            resolved ++ [[]]
          else resolved
        let joined : String := ⟨List.intercalate ['/'] resolved⟩
        urlunparse u.scheme netloc (if joined = "" then "/" else joined)
          u.params u.query u.fragment

/-! The engine functions of `captive_portal.py`. -/

/-- Failure modes of `parse_login_form` (the two `RuntimeError`s). -/
inductive ParseErr : Type
  | NoMatchingForm
  | NoMatchingButton
deriving DecidableEq

/-- Python `{k: v for k, v in form_attrs_raw.items() if v is not None}`. -/
def drop_none_attrs (d : Attrs) : StrDict :=
  d.filterMap (fun kv => kv.2.map (fun v => (kv.1, v)))

/-- Selection half of `parse_login_form`: index 0, or the first index whose
submit-button flag is set when a button-text rule is configured. -/
def select_index (cfg : ScanConfig) (p : ScanState) : Except ParseErr Nat :=
  if cfg.button_text_contains = "" then .ok 0
  else
    match (p.form_submit_match.filter (fun kv => kv.2)).map Prod.fst with
    | [] => .error .NoMatchingButton
    | i :: _ => .ok i

/-- `parse_login_form` over the document's event stream. -/
def parse_login_form (events : List HtmlEvent)
    (form_id form_action_contains button_text_contains : Option String) :
    Except ParseErr (StrDict × StrDict) :=
  let cfg := mkScanConfig form_id form_action_contains button_text_contains
  let p := feed cfg initState events
  if p.forms = [] then .error .NoMatchingForm
  else
    match select_index cfg p with
    | .error e => .error e
    | .ok idx =>
      .ok (drop_none_attrs (p.forms.getD idx []), (pyLookup p.inputs idx).getD [])

/-- `portal_indicates_online`. -/
def portal_indicates_online (html marker : String) : Bool :=
  let m := pyLower (pyStrip marker)
  m ≠ "" && strContains (pyLower html) m

/-- First loop of `merge_form_data`: copy the form's own inputs (dict
comprehension dropping empty keys). -/
def payload_from_inputs (form_inputs : StrDict) : StrDict :=
  (form_inputs.filter (fun kv => kv.1 ≠ "")).foldl (fun d kv => pyInsert d kv.1 kv.2) []

/-- Second loop of `merge_form_data`: copy configured query parameters from
the portal URL when the key is still absent. -/
def payload_add_query (payload : StrDict) (portal_url : String)
    (query_fields : List String) : StrDict :=
  let portal_query := parse_qs (urlparse portal_url "" true).query
  query_fields.foldl (fun p field =>
    if (pyLookup p field).isNone then
      match pyLookup portal_query field with
      | some (v :: _) => pyInsert p field v
      | _ => p
    else p) payload

/-- Third loop of `merge_form_data`: `payload.setdefault(key, value)`. -/
def payload_add_defaults (payload : StrDict) (extra_fields : StrDict) : StrDict :=
  extra_fields.foldl (fun p kv => pySetdefault p kv.1 kv.2) payload

/-- `merge_form_data`. -/
def merge_form_data (form_inputs : StrDict) (portal_url : String)
    (extra_fields : StrDict) (query_fields : List String) : StrDict :=
  payload_add_defaults
    (payload_add_query (payload_from_inputs form_inputs) portal_url query_fields)
    extra_fields

/-- Python `form_attrs.get("action", "").rstrip("?")`. -/
def pyRstripQ (s : String) : String :=
  ⟨(s.toList.reverse.dropWhile (fun c => c = '?')).reverse⟩

/-- HTTP method of the submission request. -/
inductive HttpVerb : Type
  | get
  | post
deriving DecidableEq

/-- The request `submit_login_form` hands to the HTTP session: for POST the
payload is the form-encoded body, for GET it is the query-string params. -/
structure SubmitReq : Type where
  verb : HttpVerb
  url : String
  payload : StrDict
deriving DecidableEq

/-- `submit_login_form`, as the request it issues. -/
def submit_login_form (portal_url : String) (form_attrs : StrDict)
    (payload : StrDict) : SubmitReq :=
  let action := pyRstripQ ((pyLookup form_attrs "action").getD "")
  let method := pyLower ((pyLookup form_attrs "method").getD "get")
  let submit_url := urljoin portal_url action
  if method = "post" then { verb := .post, url := submit_url, payload := payload }
  else { verb := .get, url := submit_url, payload := payload }

/-- `has_internet`: the probe GET either raises `requests.RequestException`
(`none`) or returns a status code. -/
def has_internet (probe_response : Option Nat) (expected_status : Nat) : Bool :=
  match probe_response with
  | none => false
  | some code => code == expected_status

/-- A fetched HTTP page; `events` is the token stream the HTML tokenizer
produces for `text`. -/
structure HttpPage : Type where
  url : String
  text : String
  content_type : String
  events : List HtmlEvent
deriving DecidableEq

/-- Network environment of one login attempt: what each request made by the
engine would return, `none` meaning a transport failure. -/
structure NetEnv : Type where
  probe_first : Option Nat
  fetch_probe : Option HttpPage
  fetch_fallback : Option HttpPage
  submit_status : Option Nat
  probe_final : Option Nat
deriving DecidableEq

/-- `fetch_portal_page`: use the probe response when it is non-empty HTML,
otherwise fall back; a fallback transport failure propagates (`none`). -/
def fetch_portal_page (env : NetEnv) : Option HttpPage :=
  match env.fetch_probe with
  | some r =>
    if r.text ≠ "" ∧ strContains r.content_type "text/html" then some r
    else env.fetch_fallback
  | none => env.fetch_fallback

/-- Constructor arguments of `CaptivePortalClient`. -/
structure Config : Type where
  probe_url : String
  probe_expected_status : Nat
  portal_fallback_url : String
  form_id : Option String
  form_action_contains : Option String
  button_text_contains : Option String
  already_online_marker : Option String
  default_form_fields : StrDict
  query_fields_from_url : List String
  request_timeout : Nat
deriving DecidableEq

/-- `CaptivePortalClient.is_online_page`. -/
def is_online_page (cfg : Config) (html : String) : Bool :=
  match cfg.already_online_marker with
  | none => false
  | some m => if m = "" then false else portal_indicates_online html m

/-- Externally visible steps of one `login()` run, in order. -/
inductive Action : Type
  | probeReq
  | fetchStep
  | parseStep
  | buildStep
  | submitStep (req : SubmitReq)
deriving DecidableEq

/-- Errors that abort `login()`: uncaught `requests` exceptions and the two
`RuntimeError`s of `parse_login_form`. -/
inductive LoginErr : Type
  | transport
  | noMatchingForm
  | noMatchingButton
deriving DecidableEq

/-- `CaptivePortalClient.login`, returning the exit code and the trace of
steps performed. -/
def login (cfg : Config) (env : NetEnv) : Except LoginErr (Nat × List Action) :=
  if has_internet env.probe_first cfg.probe_expected_status then .ok (0, [.probeReq])
  else
    match fetch_portal_page env with
    | none => .error .transport
    | some page =>
      if is_online_page cfg page.text then .ok (0, [.probeReq, .fetchStep])
      else
        match parse_login_form page.events cfg.form_id cfg.form_action_contains
            cfg.button_text_contains with
        | .error .NoMatchingForm => .error .noMatchingForm
        | .error .NoMatchingButton => .error .noMatchingButton
        | .ok (form_attrs, form_inputs) =>
          let payload := merge_form_data form_inputs page.url
            cfg.default_form_fields cfg.query_fields_from_url
          let req := submit_login_form page.url form_attrs payload
          match env.submit_status with
          | none => .error .transport
          | some _ =>
            let acts := [Action.probeReq, .fetchStep, .parseStep, .buildStep,
              .submitStep req]
            if has_internet env.probe_final cfg.probe_expected_status then
              .ok (0, acts ++ [.probeReq])
            else .ok (1, acts ++ [.probeReq])

/-! Lemmas about the Python-dict operations. -/

theorem pyLookup_pyInsert_self {α β : Type} [DecidableEq α] (d : List (α × β)) (k : α)
    (v : β) : pyLookup (pyInsert d k v) k = some v := by
  induction d with
  | nil => simp [pyInsert, pyLookup]
  | cons hd tl ih =>
    obtain ⟨k', v'⟩ := hd
    by_cases h : k' = k
    · simp [pyInsert, pyLookup, h]
    · simp [pyInsert, pyLookup, h, ih]

theorem pyLookup_pyInsert_ne {α β : Type} [DecidableEq α] (d : List (α × β)) (k k' : α)
    (v : β) (h : k' ≠ k) : pyLookup (pyInsert d k v) k' = pyLookup d k' := by
  have hkk : ¬ (k = k') := fun hh => h hh.symm
  induction d with
  | nil => simp [pyInsert, pyLookup, hkk]
  | cons hd tl ih =>
    obtain ⟨k0, v0⟩ := hd
    by_cases h0 : k0 = k
    · subst h0
      simp [pyInsert, pyLookup, hkk]
    · by_cases h1 : k0 = k'
      · simp [pyInsert, pyLookup, h0, h1, hkk, h]
      · simp [pyInsert, pyLookup, h0, h1, ih]

theorem pyLookup_mem {α β : Type} [DecidableEq α] (d : List (α × β)) (k : α) (v : β)
    (h : pyLookup d k = some v) : (k, v) ∈ d := by
  induction d with
  | nil => simp [pyLookup] at h
  | cons hd tl ih =>
    obtain ⟨k', v'⟩ := hd
    by_cases h0 : k' = k
    · subst h0
      have h' : some v' = some v := by simpa [pyLookup] using h
      injection h' with hv
      subst hv
      exact List.mem_cons_self _ _
    · simp only [pyLookup, if_neg h0] at h
      exact List.mem_cons_of_mem _ (ih h)

theorem pyLookup_isSome_iff {α β : Type} [DecidableEq α] (d : List (α × β)) (k : α) :
    (pyLookup d k).isSome ↔ k ∈ d.map Prod.fst := by
  induction d with
  | nil => simp [pyLookup]
  | cons hd tl ih =>
    obtain ⟨k', v'⟩ := hd
    by_cases h : k' = k
    · subst h
      simp [pyLookup]
    · simp [pyLookup, h, ih, Ne.symm h]

theorem pyLookup_eq_none_iff {α β : Type} [DecidableEq α] (d : List (α × β)) (k : α) :
    pyLookup d k = none ↔ k ∉ d.map Prod.fst := by
  rw [← pyLookup_isSome_iff, Option.isSome_iff_ne_none]
  simp

theorem pyInsert_keys_mem {α β : Type} [DecidableEq α] (d : List (α × β)) (k : α) (v : β)
    (h : k ∈ d.map Prod.fst) : (pyInsert d k v).map Prod.fst = d.map Prod.fst := by
  induction d with
  | nil => simp at h
  | cons hd tl ih =>
    obtain ⟨k', v'⟩ := hd
    by_cases h0 : k' = k
    · subst h0
      simp [pyInsert]
    · simp only [List.map_cons, List.mem_cons] at h
      rcases h with h | h

      · exact absurd h.symm h0
      · simp [pyInsert, h0, ih h]

theorem pyInsert_keys_not_mem {α β : Type} [DecidableEq α] (d : List (α × β)) (k : α)
    (v : β) (h : k ∉ d.map Prod.fst) :
    (pyInsert d k v).map Prod.fst = d.map Prod.fst ++ [k] := by
  induction d with
  | nil => simp [pyInsert]
  | cons hd tl ih =>
    obtain ⟨k', v'⟩ := hd
    simp only [List.map_cons, List.mem_cons] at h
    push_neg at h
    simp [pyInsert, Ne.symm h.1, ih h.2]

theorem pyModify_keys {α β : Type} [DecidableEq α] (d : List (α × β)) (k : α)
    (f : β → β) : (pyModify d k f).map Prod.fst = d.map Prod.fst := by
  induction d with
  | nil => simp [pyModify]
  | cons hd tl ih =>
    obtain ⟨k', v'⟩ := hd
    by_cases h : k' = k
    · subst h
      simp [pyModify]
    · simp [pyModify, h, ih]

theorem pyLookup_pyModify_self {α β : Type} [DecidableEq α] (d : List (α × β)) (k : α)
    (f : β → β) : pyLookup (pyModify d k f) k = (pyLookup d k).map f := by
  induction d with
  | nil => simp [pyModify, pyLookup]
  | cons hd tl ih =>
    obtain ⟨k', v'⟩ := hd
    by_cases h : k' = k
    · subst h
      simp [pyModify, pyLookup]
    · simp [pyModify, pyLookup, h, ih]

theorem pyLookup_append {α β : Type} [DecidableEq α] (d d2 : List (α × β)) (k : α) :
    pyLookup (d ++ d2) k =
      match pyLookup d k with
      | some v => some v
      | none => pyLookup d2 k := by
  induction d with
  | nil => simp [pyLookup]
  | cons hd tl ih =>
    obtain ⟨k', v'⟩ := hd
    by_cases h : k' = k
    · simp [pyLookup, h]
    · simp [pyLookup, h, ih]

theorem pyLookup_pySetdefault_of_isSome {α β : Type} [DecidableEq α] (d : List (α × β))
    (k k' : α) (v v' : β) (h : pyLookup d k = some v) :
    pyLookup (pySetdefault d k' v') k = some v := by
  unfold pySetdefault
  split
  · exact h
  · rw [pyLookup_append, h]

theorem pyLookup_pySetdefault_self {α β : Type} [DecidableEq α] (d : List (α × β))
    (k : α) (v : β) (h : pyLookup d k = none) :
    pyLookup (pySetdefault d k v) k = some v := by
  unfold pySetdefault
  rw [h]
  simp only [Option.isSome_none, Bool.false_eq_true, if_false]
  rw [pyLookup_append, h]
  simp [pyLookup]

theorem pyLookup_pySetdefault_none {α β : Type} [DecidableEq α] (d : List (α × β))
    (k k' : α) (v' : β) (h : pyLookup d k = none) (hne : k ≠ k') :
    pyLookup (pySetdefault d k' v') k = none := by
  unfold pySetdefault
  split
  · exact h
  · rw [pyLookup_append, h]
    simp [pyLookup, Ne.symm hne]

/-! Lemmas about the scanner's step functions. -/

theorem mark_submit_match_cases (cfg : ScanConfig) (s : ScanState) (text : String)
    (fi : Option Nat) :
    mark_submit_match cfg s text fi = s ∨
    ∃ idx, (fi = some idx ∨ (fi = none ∧ s.active_form_index = some idx)) ∧
      strContains (pyLower text) cfg.button_text_contains = true ∧
      cfg.button_text_contains ≠ "" ∧
      mark_submit_match cfg s text fi =
        { s with form_submit_match := pyInsert s.form_submit_match idx true } := by
  unfold mark_submit_match
  by_cases hbt : cfg.button_text_contains = ""
  · left
    simp [hbt]
  · rw [if_neg hbt]
    cases fi with
    | some i =>
      by_cases hc : strContains (pyLower text) cfg.button_text_contains
      · right
        exact ⟨i, Or.inl rfl, hc, hbt, by simp [hc]⟩
      · left
        simp [hc]
    | none =>
      cases hha : s.active_form_index with
      | none => left; rfl
      | some i =>
        by_cases hc : strContains (pyLower text) cfg.button_text_contains
        · right
          exact ⟨i, Or.inr ⟨rfl, rfl⟩, hc, hbt, by simp [hc]⟩
        · left
          simp [hc]

theorem mark_submit_match_preserves (cfg : ScanConfig) (s : ScanState) (text : String)
    (fi : Option Nat) :
    (mark_submit_match cfg s text fi).active_form = s.active_form
    ∧ (mark_submit_match cfg s text fi).active_form_index = s.active_form_index
    ∧ (mark_submit_match cfg s text fi).forms = s.forms
    ∧ (mark_submit_match cfg s text fi).inputs = s.inputs
    ∧ (mark_submit_match cfg s text fi).capture_button_text_for_form
        = s.capture_button_text_for_form
    ∧ (mark_submit_match cfg s text fi).form_counter = s.form_counter := by
  rcases mark_submit_match_cases cfg s text fi with h | ⟨idx, _, _, _, h⟩ <;>
    rw [h] <;> exact ⟨rfl, rfl, rfl, rfl, rfl, rfl⟩

theorem mark_submit_match_flags_keys (cfg : ScanConfig) (s : ScanState) (text : String)
    (fi : Option Nat)
    (hfi : ∀ i, fi = some i → i ∈ s.form_submit_match.map Prod.fst)
    (hact : ∀ i, s.active_form_index = some i → i ∈ s.form_submit_match.map Prod.fst) :
    (mark_submit_match cfg s text fi).form_submit_match.map Prod.fst
      = s.form_submit_match.map Prod.fst := by
  rcases mark_submit_match_cases cfg s text fi with h | ⟨idx, hidx, _, _, h⟩
  · rw [h]
  · rw [h]
    rcases hidx with h1 | ⟨_, h2⟩
    · exact pyInsert_keys_mem _ _ _ (hfi idx h1)
    · exact pyInsert_keys_mem _ _ _ (hact idx h2)

/-- Shape invariant of the scanner state: the recorded forms, the per-form
input dicts and the per-form flags are all keyed by the indices
`0 .. form_counter - 1`, and the active/capture indices are in range. -/
structure ScanInv (s : ScanState) : Prop where
  forms_len : s.forms.length = s.form_counter
  inputs_keys : s.inputs.map Prod.fst = List.range s.form_counter
  flags_keys : s.form_submit_match.map Prod.fst = List.range s.form_counter
  active_idx : ∀ i, s.active_form_index = some i → i + 1 = s.form_counter
  capture_lt : ∀ i, s.capture_button_text_for_form = some i → i < s.form_counter

theorem scanInv_initState : ScanInv initState := by
  constructor <;> simp [initState]

theorem scanInv_handle_starttag (cfg : ScanConfig) (s : ScanState) (tag : String)
    (attrs : Attrs) (h : ScanInv s) : ScanInv (handle_starttag cfg s tag attrs) := by
  have hact_mem : ∀ i, s.active_form_index = some i →
      i ∈ s.form_submit_match.map Prod.fst := by
    intro i hi
    rw [h.flags_keys, List.mem_range]
    have := h.active_idx i hi
    omega
  unfold handle_starttag
  by_cases hform : tag = "form"
  · simp only [if_pos hform]
    by_cases hm : matches_form cfg (mkAttrsDict attrs)
    · simp only [if_pos hm]
      have hnotin_inputs : s.form_counter ∉ s.inputs.map Prod.fst := by
        rw [h.inputs_keys, List.mem_range]
        omega
      have hnotin_flags : s.form_counter ∉ s.form_submit_match.map Prod.fst := by
        rw [h.flags_keys, List.mem_range]
        omega
      refine ⟨?_, ?_, ?_, ?_, ?_⟩
      · simp [h.forms_len]
      · simp only
        rw [pyInsert_keys_not_mem _ _ _ hnotin_inputs, h.inputs_keys, List.range_succ]
      · simp only
        rw [pyInsert_keys_not_mem _ _ _ hnotin_flags, h.flags_keys, List.range_succ]
      · intro i hi
        dsimp only at hi ⊢
        injection hi with hi
        omega
      · intro i hi
        dsimp only at hi ⊢
        have := h.capture_lt i hi
        omega
    · simp only [if_neg hm]
      exact h
  · simp only [if_neg hform]
    by_cases hbtn : tag = "button"
    · simp only [if_pos hbtn]
      by_cases hasf : s.active_form.isSome
      · simp only [if_pos hasf]
        by_cases hty : pyLower (pyGetOr (mkAttrsDict attrs) "type" "submit") = "submit"
        · simp only [if_pos hty]
          exact ⟨h.forms_len, h.inputs_keys, h.flags_keys, h.active_idx,
            fun i hi => by
              dsimp only at hi ⊢
              have := h.active_idx i hi
              omega⟩
        · simp only [if_neg hty]
          exact h
      · simp only [if_neg hasf]
        exact h
    · simp only [if_neg hbtn]
      by_cases hin : tag = "input"
      · simp only [if_pos hin]
        by_cases hasf : s.active_form.isSome
        · simp only [if_pos hasf]
          set s1 := if pyLower (pyGetOrEmpty (mkAttrsDict attrs) "type") = "submit"
              || pyLower (pyGetOrEmpty (mkAttrsDict attrs) "type") = "button" then
              mark_submit_match cfg s (pyGetOrEmpty (mkAttrsDict attrs) "value") none
            else s with hs1
          have hpres : s1.active_form = s.active_form
              ∧ s1.active_form_index = s.active_form_index
              ∧ s1.forms = s.forms
              ∧ s1.inputs = s.inputs
              ∧ s1.capture_button_text_for_form = s.capture_button_text_for_form
              ∧ s1.form_counter = s.form_counter := by
            rw [hs1]
            split
            · exact mark_submit_match_preserves cfg s _ none
            · exact ⟨rfl, rfl, rfl, rfl, rfl, rfl⟩
          have hflags : s1.form_submit_match.map Prod.fst
              = s.form_submit_match.map Prod.fst := by
            rw [hs1]
            split
            · exact mark_submit_match_flags_keys cfg s _ none (by simp) hact_mem
            · rfl
          have hinv1 : ScanInv s1 :=
            ⟨by rw [hpres.2.2.1, hpres.2.2.2.2.2, h.forms_len],
             by rw [hpres.2.2.2.1, hpres.2.2.2.2.2, h.inputs_keys],
             by rw [hflags, hpres.2.2.2.2.2, h.flags_keys],
             fun i hi => by
               rw [hpres.2.1] at hi
               rw [hpres.2.2.2.2.2]
               exact h.active_idx i hi,
             fun i hi => by
               rw [hpres.2.2.2.2.1] at hi
               rw [hpres.2.2.2.2.2]
               exact h.capture_lt i hi⟩
          cases pyGetAttr (mkAttrsDict attrs) "name" with
          | none => exact hinv1
          | some n =>
            simp only
            split
            · exact ⟨hinv1.forms_len,
                by simp only [pyModify_keys]; exact hinv1.inputs_keys,
                hinv1.flags_keys, hinv1.active_idx, hinv1.capture_lt⟩
            · exact hinv1
        · simp only [if_neg hasf]
          exact h
      · simp only [if_neg hin]
        exact h

theorem scanInv_handle_endtag (s : ScanState) (tag : String) (h : ScanInv s) :
    ScanInv (handle_endtag s tag) := by
  unfold handle_endtag
  split
  · exact ⟨h.forms_len, h.inputs_keys, h.flags_keys, h.active_idx, by simp⟩
  · split
    · exact ⟨h.forms_len, h.inputs_keys, h.flags_keys, by simp, by simp⟩
    · exact h

theorem scanInv_handle_data (cfg : ScanConfig) (s : ScanState) (text : String)
    (h : ScanInv s) : ScanInv (handle_data cfg s text) := by
  unfold handle_data
  cases hc : s.capture_button_text_for_form with
  | none => exact h
  | some i =>
    have hub := mark_submit_match_preserves cfg s text (some i)
    have hkeys : (mark_submit_match cfg s text (some i)).form_submit_match.map Prod.fst
        = s.form_submit_match.map Prod.fst := by
      refine mark_submit_match_flags_keys cfg s text (some i) ?_ ?_
      · intro j hj
        injection hj with hj
        subst hj
        rw [h.flags_keys, List.mem_range]
        exact h.capture_lt _ hc
      · intro j hj
        rw [h.flags_keys, List.mem_range]
        have := h.active_idx j hj
        omega
    exact ⟨by rw [hub.2.2.1, hub.2.2.2.2.2, h.forms_len],
      by rw [hub.2.2.2.1, hub.2.2.2.2.2, h.inputs_keys],
      by rw [hkeys, hub.2.2.2.2.2, h.flags_keys],
      fun j hj => by
        rw [hub.2.1] at hj
        rw [hub.2.2.2.2.2]
        exact h.active_idx j hj,
      fun j hj => by
        rw [hub.2.2.2.2.1] at hj
        rw [hub.2.2.2.2.2]
        exact h.capture_lt j hj⟩

theorem scanInv_applyEvent (cfg : ScanConfig) (s : ScanState) (e : HtmlEvent)
    (h : ScanInv s) : ScanInv (applyEvent cfg s e) := by
  cases e with
  | startTag tag attrs => exact scanInv_handle_starttag cfg s tag attrs h
  | endTag tag => exact scanInv_handle_endtag s tag h
  | data text => exact scanInv_handle_data cfg s text h

theorem scanInv_feed (cfg : ScanConfig) (s : ScanState) (events : List HtmlEvent)
    (h : ScanInv s) : ScanInv (feed cfg s events) := by
  induction events generalizing s with
  | nil => exact h
  | cons e tl ih => exact ih _ (scanInv_applyEvent cfg s e h)

theorem scanInv_scan (cfg : ScanConfig) (events : List HtmlEvent) :
    ScanInv (feed cfg initState events) :=
  scanInv_feed cfg initState events scanInv_initState

/-- `select_index` only ever fails with `NoMatchingButton`. -/
theorem select_index_ne_NMF (cfg : ScanConfig) (p : ScanState) :
    select_index cfg p ≠ .error .NoMatchingForm := by
  unfold select_index
  split
  · simp
  · split <;> simp

/-- In a flag dict whose keys are `range' a n` (hence strictly increasing),
the head of the true-filtered list is the least index holding `true`. -/
theorem first_flagged (d : List (Nat × Bool)) :
    ∀ a n, d.map Prod.fst = List.range' a n →
      ∀ q rest, d.filter (fun kv => kv.2) = q :: rest →
        pyLookup d q.1 = some true ∧
        ∀ j, a ≤ j → j < q.1 → pyLookup d j = some false := by
  induction d with
  | nil =>
    intro a n _ q rest hf
    simp at hf
  | cons hd tl ih =>
    intro a n hkeys q rest hf
    obtain ⟨k, bv⟩ := hd
    cases n with
    | zero => simp [List.range'] at hkeys
    | succ m =>
      rw [List.range'_succ] at hkeys
      simp only [List.map_cons, List.cons.injEq] at hkeys
      obtain ⟨hk, htl⟩ := hkeys
      subst hk
      cases bv with
      | true =>
        rw [List.filter_cons_of_pos (by rfl)] at hf
        injection hf with hq hrest
        subst hq
        refine ⟨by simp [pyLookup], fun j hj1 hj2 => ?_⟩
        have hjk : j < k := by simpa using hj2
        exact absurd hjk (by omega)
      | false =>
        rw [List.filter_cons_of_neg (by simp)] at hf
        obtain ⟨hlook, hrest⟩ := ih (k + 1) m htl q rest hf
        have hqmem : q.1 ∈ tl.map Prod.fst := by
          rw [← pyLookup_isSome_iff, hlook]
          rfl
        have hqge : k + 1 ≤ q.1 := by
          rw [htl] at hqmem
          have := List.mem_range'_1.mp hqmem
          omega
        refine ⟨?_, fun j hj1 hj2 => ?_⟩
        · simp only [pyLookup]
          rw [if_neg (by omega), hlook]
        · by_cases hja : j = k
          · subst hja
            simp [pyLookup]
          · simp only [pyLookup]
            rw [if_neg (by omega)]
            exact hrest j (by omega) hj2

/-- One inactive step: with no active form and no capture, any event that is
not a matching `<form>` start tag leaves the scanner state unchanged. -/
theorem applyEvent_inactive (cfg : ScanConfig) (s : ScanState) (e : HtmlEvent)
    (ha : s.active_form = none) (hai : s.active_form_index = none)
    (hc : s.capture_button_text_for_form = none)
    (hm : isMatchingFormStart cfg e = false) :
    applyEvent cfg s e = s := by
  cases e with
  | startTag tag attrs =>
    show handle_starttag cfg s tag attrs = s
    simp only [handle_starttag]
    by_cases hform : tag = "form"
    · subst hform
      simp only [isMatchingFormStart, if_true] at hm
      simp [hm]
    · have hiss : s.active_form.isSome = false := by simp [ha]
      simp [hform, hiss]
  | endTag tag =>
    show handle_endtag s tag = s
    unfold handle_endtag
    by_cases hbtn : tag = "button"
    · rw [if_pos hbtn]
      cases s
      simp only at hc
      simp [hc]
    · rw [if_neg hbtn]
      by_cases hform : tag = "form"
      · rw [if_pos hform]
        cases s
        simp only at ha hai hc
        simp [ha, hai, hc]
      · rw [if_neg hform]
  | data text =>
    show handle_data cfg s text = s
    unfold handle_data
    rw [hc]

/-- While no matching form is active (and nothing is being captured), a run
of events containing no matching `<form>` start tag is a no-op. -/
theorem feed_inactive (cfg : ScanConfig) (s : ScanState) (events : List HtmlEvent)
    (ha : s.active_form = none) (hai : s.active_form_index = none)
    (hc : s.capture_button_text_for_form = none)
    (hm : ∀ e ∈ events, isMatchingFormStart cfg e = false) :
    feed cfg s events = s := by
  induction events with
  | nil => rfl
  | cons e tl ih =>
    have h1 : applyEvent cfg s e = s :=
      applyEvent_inactive cfg s e ha hai hc (hm e (List.mem_cons_self _ _))
    show feed cfg (applyEvent cfg s e) tl = s
    rw [h1]
    exact ih (fun e he => hm e (List.mem_cons_of_mem _ he))

/-! Lemmas about payload construction. -/

theorem pyInsert_not_mem_eq_append {α β : Type} [DecidableEq α] (d : List (α × β))
    (k : α) (v : β) (h : k ∉ d.map Prod.fst) : pyInsert d k v = d ++ [(k, v)] := by
  induction d with
  | nil => rfl
  | cons hd tl ih =>
    obtain ⟨k0, v0⟩ := hd
    simp only [List.map_cons, List.mem_cons] at h
    push_neg at h
    simp [pyInsert, Ne.symm h.1, ih h.2]

theorem foldl_pyInsert_fresh (l : StrDict) (hnd : (l.map Prod.fst).Nodup) :
    ∀ acc : StrDict, (∀ x ∈ l.map Prod.fst, x ∉ acc.map Prod.fst) →
      l.foldl (fun d kv => pyInsert d kv.1 kv.2) acc = acc ++ l := by
  induction l with
  | nil => intro acc _; simp
  | cons kv tl ih =>
    intro acc hdisj
    obtain ⟨k0, v0⟩ := kv
    simp only [List.map_cons, List.nodup_cons] at hnd
    rw [List.foldl_cons]
    have hk0 : k0 ∉ acc.map Prod.fst := hdisj k0 (by simp)
    rw [pyInsert_not_mem_eq_append acc k0 v0 hk0]
    rw [ih hnd.2 (acc ++ [(k0, v0)]) ?_]
    · simp
    · intro x hx
      simp only [List.map_append, List.mem_append]
      push_neg
      refine ⟨hdisj x (by simp [hx]), ?_⟩
      simp only [List.map_cons, List.map_nil, List.mem_singleton]
      intro he
      subst he
      exact hnd.1 hx

theorem pyLookup_filter_ne (fi : StrDict) (k v : String) (hk : k ≠ "")
    (h : pyLookup fi k = some v) :
    pyLookup (fi.filter (fun kv => kv.1 ≠ "")) k = some v := by
  induction fi with
  | nil => simp [pyLookup] at h
  | cons kv tl ih =>
    obtain ⟨k0, v0⟩ := kv
    by_cases hk0 : k0 = k
    · subst hk0
      have hv : v0 = v := by simpa [pyLookup] using h
      subst hv
      rw [List.filter_cons_of_pos (by simpa using hk)]
      simp [pyLookup]
    · have h' : pyLookup tl k = some v := by simpa [pyLookup, hk0] using h
      by_cases hke : k0 = ""
      · rw [List.filter_cons_of_neg (by simp [hke])]
        exact ih h'
      · rw [List.filter_cons_of_pos (by simpa using hke)]
        simp only [pyLookup]
        rw [if_neg hk0]
        exact ih h'

theorem payload_from_inputs_lookup (fi : StrDict) (k v : String) (hk : k ≠ "")
    (hnd : (fi.map Prod.fst).Nodup) (h : pyLookup fi k = some v) :
    pyLookup (payload_from_inputs fi) k = some v := by
  unfold payload_from_inputs
  have hndf : ((fi.filter (fun kv => kv.1 ≠ "")).map Prod.fst).Nodup :=
    hnd.sublist (List.Sublist.map Prod.fst (List.filter_sublist fi))
  rw [foldl_pyInsert_fresh _ hndf [] (by simp)]
  simpa using pyLookup_filter_ne fi k v hk h

theorem query_fold_keeps (pq : List (String × List String)) (qf : List String)
    (k v : String) :
    ∀ p : StrDict, pyLookup p k = some v →
      pyLookup (qf.foldl (fun p field =>
        if (pyLookup p field).isNone then
          match pyLookup pq field with
          | some (vq :: _) => pyInsert p field vq
          | _ => p
        else p) p) k = some v := by
  induction qf with
  | nil => intro p h; exact h
  | cons f tl ih =>
    intro p h
    rw [List.foldl_cons]
    apply ih
    by_cases hf : (pyLookup p f).isNone
    · rw [if_pos hf]
      have hkf : k ≠ f := by
        intro he
        subst he
        rw [h] at hf
        simp at hf
      cases hq : pyLookup pq f with
      | none => exact h
      | some vs =>
        cases vs with
        | nil => exact h
        | cons vq tlv =>
          show pyLookup (pyInsert p f vq) k = some v
          rw [pyLookup_pyInsert_ne p f k vq hkf]
          exact h
    · rw [if_neg hf]
      exact h

theorem query_fold_hits (pq : List (String × List String)) (qf : List String)
    (k v : String) (vs : List String) (hq : pyLookup pq k = some (v :: vs)) :
    ∀ p : StrDict, pyLookup p k = none → k ∈ qf →
      pyLookup (qf.foldl (fun p field =>
        if (pyLookup p field).isNone then
          match pyLookup pq field with
          | some (vq :: _) => pyInsert p field vq
          | _ => p
        else p) p) k = some v := by
  induction qf with
  | nil => intro p _ hmem; simp at hmem
  | cons f tl ih =>
    intro p hnone hmem
    rw [List.foldl_cons]
    by_cases hkf : f = k
    · subst hkf
      rw [if_pos (by simp [hnone]), hq]
      exact query_fold_keeps pq tl f v _ (pyLookup_pyInsert_self p f v)
    · have hmem' : k ∈ tl := by
        rcases List.mem_cons.mp hmem with h1 | h1
        · exact absurd h1.symm hkf
        · exact h1
      have hstep : pyLookup (if (pyLookup p f).isNone then
          match pyLookup pq f with
          | some (vq :: _) => pyInsert p f vq
          | _ => p
        else p) k = none := by
        by_cases hf : (pyLookup p f).isNone
        · rw [if_pos hf]
          cases hqf : pyLookup pq f with
          | none => exact hnone
          | some ws =>
            cases ws with
            | nil => exact hnone
            | cons wq tlw =>
              show pyLookup (pyInsert p f wq) k = none
              rw [pyLookup_pyInsert_ne p f k wq (fun he => hkf he.symm)]
              exact hnone
        · rw [if_neg hf]
          exact hnone
      exact ih _ hstep hmem'

theorem defaults_fold_keeps (extra : StrDict) (k v : String) :
    ∀ p : StrDict, pyLookup p k = some v →
      pyLookup (payload_add_defaults p extra) k = some v := by
  unfold payload_add_defaults
  induction extra with
  | nil => intro p h; exact h
  | cons kv tl ih =>
    intro p h
    rw [List.foldl_cons]
    exact ih _ (pyLookup_pySetdefault_of_isSome p k kv.1 v kv.2 h)

theorem defaults_fold_hits (extra : StrDict) (k v : String) :
    ∀ p : StrDict, pyLookup p k = none → pyLookup extra k = some v →
      pyLookup (payload_add_defaults p extra) k = some v := by
  induction extra with
  | nil => intro p _ h; simp [pyLookup] at h
  | cons kv tl ih =>
    intro p hnone h
    obtain ⟨k0, v0⟩ := kv
    show pyLookup (payload_add_defaults (pySetdefault p k0 v0) tl) k = some v
    by_cases hk0 : k0 = k
    · subst hk0
      have hv : v0 = v := by simpa [pyLookup] using h
      subst hv
      exact defaults_fold_keeps tl k0 v0 _ (pyLookup_pySetdefault_self p k0 v0 hnone)
    · have h' : pyLookup tl k = some v := by simpa [pyLookup, hk0] using h
      exact ih _ (pyLookup_pySetdefault_none p k k0 v0 hnone (fun he => hk0 he.symm)) h'

/-! Lemmas about substring containment and normalisation. -/

theorem strContains_eq_true_iff (s pat : String) :
    strContains s pat = true ↔ pat.toList <:+: s.toList := by
  simp [strContains]

theorem infix_map_toLower {l1 l2 : List Char} (h : l1 <:+: l2) :
    l1.map Char.toLower <:+: l2.map Char.toLower := by
  obtain ⟨s, t, rfl⟩ := h
  exact ⟨s.map Char.toLower, t.map Char.toLower, by simp⟩

theorem pyStrip_toList_contained (s : String) : (pyStrip s).toList <:+: s.toList := by
  show ((s.toList.dropWhile Char.isWhitespace).reverse.dropWhile
      Char.isWhitespace).reverse <:+: s.toList
  have h1 : s.toList.dropWhile Char.isWhitespace <:+ s.toList :=
    List.dropWhile_suffix _
  have h2 : (s.toList.dropWhile Char.isWhitespace).reverse.dropWhile Char.isWhitespace
      <:+ (s.toList.dropWhile Char.isWhitespace).reverse :=
    List.dropWhile_suffix _
  have h3 := (List.reverse_prefix).mpr h2
  rw [List.reverse_reverse] at h3
  exact h3.isInfix.trans h1.isInfix

theorem pyLower_toList (s : String) : (pyLower s).toList = s.toList.map Char.toLower :=
  rfl

theorem pyLower_eq_empty_iff (s : String) : pyLower s = "" ↔ s = "" := by
  constructor
  · intro h
    have hdata : (pyLower s).data = [] := congrArg String.data h
    have hmap : s.data.map Char.toLower = [] := hdata
    have hnil : s.data = [] := List.map_eq_nil_iff.mp hmap
    cases s with
    | mk data =>
      simp only at hnil
      subst hnil
      rfl
  · intro h
    subst h
    rfl

theorem portal_indicates_online_of_occurs (html m : String) (hms : pyStrip m ≠ "")
    (hocc : strContains (pyLower html) (pyLower m) = true) :
    portal_indicates_online html m = true := by
  unfold portal_indicates_online
  rw [Bool.and_eq_true]
  constructor
  · simpa using fun he => hms ((pyLower_eq_empty_iff (pyStrip m)).mp he)
  · rw [strContains_eq_true_iff] at hocc ⊢
    rw [pyLower_toList]
    have h1 : (pyStrip m).toList.map Char.toLower <:+: m.toList.map Char.toLower :=
      infix_map_toLower (pyStrip_toList_contained m)
    rw [← pyLower_toList, ← pyLower_toList] at h1
    exact h1.trans hocc

/-- Definitional unfolding of `handle_starttag` at a `<button>` tag while a
form is active. -/
theorem handle_starttag_button_eq (cfg : ScanConfig) (s : ScanState) (attrs : Attrs)
    (hact : s.active_form.isSome = true) :
    handle_starttag cfg s "button" attrs =
      (if pyLower (pyGetOr (mkAttrsDict attrs) "type" "submit") = "submit" then
        { s with capture_button_text_for_form := s.active_form_index }
      else s) := by
  have h : handle_starttag cfg s "button" attrs
      = if s.active_form.isSome = true then
          (if pyLower (pyGetOr (mkAttrsDict attrs) "type" "submit") = "submit" then
            { s with capture_button_text_for_form := s.active_form_index }
          else s)
        else s := rfl
  rw [h, if_pos hact]

/-- Definitional unfolding of `handle_starttag` at an `<input>` tag while a
form is active. -/
theorem handle_starttag_input_eq (cfg : ScanConfig) (s : ScanState) (attrs : Attrs)
    (hact : s.active_form.isSome = true) :
    handle_starttag cfg s "input" attrs =
      (let s1 := if pyLower (pyGetOrEmpty (mkAttrsDict attrs) "type") = "submit"
          || pyLower (pyGetOrEmpty (mkAttrsDict attrs) "type") = "button" then
          mark_submit_match cfg s (pyGetOrEmpty (mkAttrsDict attrs) "value") none
        else s
       match pyGetAttr (mkAttrsDict attrs) "name" with
       | some n =>
         if n ≠ "" ∧ pyLower (pyGetOrEmpty (mkAttrsDict attrs) "type") ≠ "submit" then
           { s1 with
             inputs := pyModify s1.inputs (s1.form_counter - 1)
               (fun d => pyInsert d n (pyGetOrEmpty (mkAttrsDict attrs) "value")) }
         else s1
       | none => s1) := by
  have h : handle_starttag cfg s "input" attrs
      = if s.active_form.isSome = true then
          (let s1 := if pyLower (pyGetOrEmpty (mkAttrsDict attrs) "type") = "submit"
              || pyLower (pyGetOrEmpty (mkAttrsDict attrs) "type") = "button" then
              mark_submit_match cfg s (pyGetOrEmpty (mkAttrsDict attrs) "value") none
            else s
           match pyGetAttr (mkAttrsDict attrs) "name" with
           | some n =>
             if n ≠ "" ∧ pyLower (pyGetOrEmpty (mkAttrsDict attrs) "type") ≠ "submit" then
               { s1 with
                 inputs := pyModify s1.inputs (s1.form_counter - 1)
                   (fun d => pyInsert d n (pyGetOrEmpty (mkAttrsDict attrs) "value")) }
             else s1
           | none => s1)
        else s := rfl
  rw [h, if_pos hact]

/-! Claim theorems. -/

/-- C5: the connectivity probe never raises: a transport failure yields the
not-online value (`Unreachable`, collapsed to `false` like `Blocked`), a
response whose status equals the configured expected code yields `Online`
(`true`), and any other status yields `Blocked` (`false`). -/
theorem C5_probe_classification :
    (∀ expected : Nat, has_internet none expected = false)
    ∧ (∀ code expected : Nat, has_internet (some code) expected = (code == expected)) :=
  ⟨fun _ => rfl, fun _ _ => rfl⟩

/-- C7: when the initial probe returns the configured expected status, the
login run performs only that probe (no fetch, parse, build or submit step)
and terminates with exit code 0. -/
theorem C7_online_probe_short_circuit (cfg : Config) (env : NetEnv)
    (h : env.probe_first = some cfg.probe_expected_status) :
    login cfg env = .ok (0, [Action.probeReq]) := by
  unfold login
  rw [h]
  simp [has_internet]

/-- Witness for C7 at a concrete configuration and environment. -/
theorem C7_witness :
    login
      { probe_url := "http://connectivitycheck.gstatic.com/generate_204"
        probe_expected_status := 204
        portal_fallback_url := "https://hotspot.example/"
        form_id := some "loginForm"
        form_action_contains := some "/api/v4/login"
        button_text_contains := none
        already_online_marker := none
        default_form_fields := [("portal", "bayern")]
        query_fields_from_url := ["sessionID"]
        request_timeout := 10 }
      { probe_first := some 204
        fetch_probe := none
        fetch_fallback := none
        submit_status := none
        probe_final := none }
      = .ok (0, [Action.probeReq]) :=
  C7_online_probe_short_circuit _ _ rfl

/-- C8: submission resolves the form's action (with all trailing literal `?`
characters stripped first) against the portal's final URL via `urljoin`; a
case-insensitive `method` of "post" (defaulting to "get" when absent) sends
the payload as the POST body, anything else as GET params. -/
theorem C8_submit_resolution (portal_url : String) (form_attrs payload : StrDict) :
    (submit_login_form portal_url form_attrs payload).url
      = urljoin portal_url (pyRstripQ ((pyLookup form_attrs "action").getD ""))
    ∧ (submit_login_form portal_url form_attrs payload).verb
      = (if pyLower ((pyLookup form_attrs "method").getD "get") = "post" then
          HttpVerb.post
        else HttpVerb.get)
    ∧ (submit_login_form portal_url form_attrs payload).payload = payload
    ∧ submit_login_form "http://portal.example/login/index.html"
        [("action", "api/v4/login?"), ("method", "POST")] [("u", "x")]
      = { verb := HttpVerb.post, url := "http://portal.example/login/api/v4/login",
          payload := [("u", "x")] }
    ∧ submit_login_form "http://portal.example/login/index.html" [] []
      = { verb := HttpVerb.get, url := "http://portal.example/login/index.html",
          payload := [] } := by
  refine ⟨?_, ?_, ?_, by rfl, by rfl⟩
  · simp only [submit_login_form]
    split <;> rfl
  · simp only [submit_login_form]
    split <;> rfl
  · simp only [submit_login_form]
    split <;> rfl

/-- C1 counterexample: with two `<input>` tags sharing the name `x` inside
the matching form, the recorded value is the second one ("2"), not the first
("1") as the claim's first-occurrence-wins rule predicts. -/
theorem C1_counterexample :
    parse_login_form
        [HtmlEvent.startTag "form" [("id", some "f")],
         HtmlEvent.startTag "input" [("name", some "x"), ("value", some "1")],
         HtmlEvent.startTag "input" [("name", some "x"), ("value", some "2")],
         HtmlEvent.endTag "form"] (some "f") none none
      = .ok ([("id", "f")], [("x", "2")])
    ∧ parse_login_form
        [HtmlEvent.startTag "form" [("id", some "f")],
         HtmlEvent.startTag "input" [("name", some "x"), ("value", some "1")],
         HtmlEvent.startTag "input" [("name", some "x"), ("value", some "2")],
         HtmlEvent.endTag "form"] (some "f") none none
      ≠ .ok ([("id", "f")], [("x", "1")]) := by
  have h1 : parse_login_form
      [HtmlEvent.startTag "form" [("id", some "f")],
       HtmlEvent.startTag "input" [("name", some "x"), ("value", some "1")],
       HtmlEvent.startTag "input" [("name", some "x"), ("value", some "2")],
       HtmlEvent.endTag "form"] (some "f") none none
      = .ok ([("id", "f")], [("x", "2")]) := by rfl
  refine ⟨h1, fun h => ?_⟩
  rw [h1] at h
  simp at h

/-- C1 (amended): while inside a matching form, an `<input>` start tag with a
non-empty `name` attribute whose `type` (case-insensitive) is not "submit"
records `name → value` (value defaulting to the empty string) into the active
form's input dict, overwriting any previously recorded value for the same
name: the last occurrence wins, not the first. -/
theorem C1_input_recording_last_wins (cfg : ScanConfig) (s : ScanState)
    (attrs : Attrs) (n : String) (d0 : StrDict)
    (hact : s.active_form.isSome = true)
    (hname : pyGetAttr (mkAttrsDict attrs) "name" = some n)
    (hn : n ≠ "")
    (htype : pyLower (pyGetOrEmpty (mkAttrsDict attrs) "type") ≠ "submit")
    (hd0 : pyLookup s.inputs (s.form_counter - 1) = some d0) :
    pyLookup (handle_starttag cfg s "input" attrs).inputs (s.form_counter - 1)
      = some (pyInsert d0 n (pyGetOrEmpty (mkAttrsDict attrs) "value"))
    ∧ pyLookup (pyInsert d0 n (pyGetOrEmpty (mkAttrsDict attrs) "value")) n
      = some (pyGetOrEmpty (mkAttrsDict attrs) "value") := by
  refine ⟨?_, pyLookup_pyInsert_self d0 n _⟩
  have hinp : (if pyLower (pyGetOrEmpty (mkAttrsDict attrs) "type") = "submit"
        || pyLower (pyGetOrEmpty (mkAttrsDict attrs) "type") = "button" then
        mark_submit_match cfg s (pyGetOrEmpty (mkAttrsDict attrs) "value") none
      else s).inputs = s.inputs := by
    split
    · exact (mark_submit_match_preserves cfg s _ none).2.2.2.1
    · rfl
  have hcnt : (if pyLower (pyGetOrEmpty (mkAttrsDict attrs) "type") = "submit"
        || pyLower (pyGetOrEmpty (mkAttrsDict attrs) "type") = "button" then
        mark_submit_match cfg s (pyGetOrEmpty (mkAttrsDict attrs) "value") none
      else s).form_counter = s.form_counter := by
    split
    · exact (mark_submit_match_preserves cfg s _ none).2.2.2.2.2
    · rfl
  rw [handle_starttag_input_eq cfg s attrs hact]
  dsimp only
  rw [hname]
  dsimp only
  rw [if_pos (show n ≠ "" ∧ pyLower (pyGetOrEmpty (mkAttrsDict attrs) "type") ≠ "submit"
    from ⟨hn, htype⟩)]
  dsimp only
  rw [hinp, hcnt, pyLookup_pyModify_self, hd0]
  rfl

/-- Witness for the amended C1 at a concrete in-form state. -/
theorem C1_witness :
    pyLookup (handle_starttag (mkScanConfig (some "f") none none)
        { active_form := some [("id", some "f")]
          active_form_index := some 0
          forms := [[("id", some "f")]]
          inputs := [(0, [("x", "1")])]
          form_submit_match := [(0, false)]
          capture_button_text_for_form := none
          form_counter := 1 }
        "input" [("name", some "x"), ("value", some "2")]).inputs 0
      = some (pyInsert [("x", "1")] "x" "2")
    ∧ pyLookup (pyInsert [("x", "1")] "x" "2") "x" = some "2" :=
  C1_input_recording_last_wins (mkScanConfig (some "f") none none) _ _ "x"
    [("x", "1")] rfl rfl (by decide) (by decide) rfl

/-- C4 counterexample: a `<button type="button">Connect</button>` inside the
matching form leaves the submit-button flag false even though its text
contains the configured "connect" (the code only captures buttons whose type
is "submit"); and with the button text split into the chunks "Con" / "nect"
by a nested tag, the flag stays false for the configured "onne" although the
accumulated text "Connect" contains it. -/
theorem C4_counterexample :
    (feed (mkScanConfig (some "f") none (some "connect")) initState
        [HtmlEvent.startTag "form" [("id", some "f")],
         HtmlEvent.startTag "button" [("type", some "button")],
         HtmlEvent.data "Connect",
         HtmlEvent.endTag "button",
         HtmlEvent.endTag "form"]).form_submit_match = [(0, false)]
    ∧ strContains (pyLower "Connect")
        (mkScanConfig (some "f") none (some "connect")).button_text_contains = true
    ∧ (feed (mkScanConfig (some "f") none (some "onne")) initState
        [HtmlEvent.startTag "form" [("id", some "f")],
         HtmlEvent.startTag "button" [],
         HtmlEvent.data "Con",
         HtmlEvent.startTag "b" [],
         HtmlEvent.data "nect",
         HtmlEvent.endTag "b",
         HtmlEvent.endTag "button",
         HtmlEvent.endTag "form"]).form_submit_match = [(0, false)]
    ∧ strContains (pyLower ("Con" ++ "nect"))
        (mkScanConfig (some "f") none (some "onne")).button_text_contains = true :=
  ⟨by rfl, by decide, by rfl, by decide⟩

/-- C4 (amended): with a button-text rule configured, (1) a `<button>` start
tag inside the matching form starts text capture iff its `type` attribute
(defaulting to "submit" when absent or empty) is "submit" — a
`type="button"` button is ignored; (2) a captured text chunk sets the form's
flag iff the configured substring occurs in that single chunk (lower-cased);
(3) an `<input>` whose type is "submit" or "button" contributes its `value`
attribute as one such chunk. -/
theorem C4_submit_text_amended (cfg : ScanConfig) (s : ScanState) (i : Nat)
    (attrs : Attrs) (text : String) (b : Bool)
    (hbt : cfg.button_text_contains ≠ "") :
    (s.active_form.isSome = true → s.active_form_index = some i →
      (handle_starttag cfg s "button" attrs).capture_button_text_for_form =
        (if pyLower (pyGetOr (mkAttrsDict attrs) "type" "submit") = "submit" then
          some i
        else s.capture_button_text_for_form))
    ∧ (s.capture_button_text_for_form = some i →
        pyLookup s.form_submit_match i = some b →
        pyLookup (handle_data cfg s text).form_submit_match i
          = some (b || strContains (pyLower text) cfg.button_text_contains))
    ∧ (s.active_form.isSome = true → s.active_form_index = some i →
        (pyLower (pyGetOrEmpty (mkAttrsDict attrs) "type") = "submit" ∨
         pyLower (pyGetOrEmpty (mkAttrsDict attrs) "type") = "button") →
        pyLookup s.form_submit_match i = some b →
        pyLookup (handle_starttag cfg s "input" attrs).form_submit_match i
          = some (b || strContains (pyLower (pyGetOrEmpty (mkAttrsDict attrs) "value"))
              cfg.button_text_contains)) := by
  have hmark1 : ∀ t : String, pyLookup s.form_submit_match i = some b →
      pyLookup (mark_submit_match cfg s t (some i)).form_submit_match i
        = some (b || strContains (pyLower t) cfg.button_text_contains) := by
    intro t hflag
    unfold mark_submit_match
    rw [if_neg hbt]
    by_cases hc : strContains (pyLower t) cfg.button_text_contains
    · simp [hc, pyLookup_pyInsert_self]
    · simp only [Bool.not_eq_true] at hc
      simp [hc, hflag]
  have hmark2 : ∀ t : String, s.active_form_index = some i →
      pyLookup s.form_submit_match i = some b →
      pyLookup (mark_submit_match cfg s t none).form_submit_match i
        = some (b || strContains (pyLower t) cfg.button_text_contains) := by
    intro t hai hflag
    unfold mark_submit_match
    rw [if_neg hbt, hai]
    by_cases hc : strContains (pyLower t) cfg.button_text_contains
    · simp [hc, pyLookup_pyInsert_self]
    · simp only [Bool.not_eq_true] at hc
      simp [hc, hflag]
  refine ⟨?_, ?_, ?_⟩
  · intro hact hai
    rw [handle_starttag_button_eq cfg s attrs hact]
    by_cases ht : pyLower (pyGetOr (mkAttrsDict attrs) "type" "submit") = "submit"
    · rw [if_pos ht, if_pos ht]
      exact hai
    · rw [if_neg ht, if_neg ht]
  · intro hcap hflag
    unfold handle_data
    rw [hcap]
    exact hmark1 text hflag
  · intro hact hai hty hflag
    rw [handle_starttag_input_eq cfg s attrs hact]
    dsimp only
    have hcond : (pyLower (pyGetOrEmpty (mkAttrsDict attrs) "type") = "submit"
        || pyLower (pyGetOrEmpty (mkAttrsDict attrs) "type") = "button") = true := by
      rcases hty with h | h <;> simp [h]
    rw [if_pos hcond]
    have hres := hmark2 (pyGetOrEmpty (mkAttrsDict attrs) "value") hai hflag
    cases hn : pyGetAttr (mkAttrsDict attrs) "name" with
    | none => exact hres
    | some n =>
      dsimp only
      split
      · exact hres
      · exact hres

/-- Witness for the amended C4: a "Go now" chunk captured for form 0 flips
its flag when the configured text is "go". -/
theorem C4_witness :
    pyLookup (handle_data (mkScanConfig (some "f") none (some "go"))
        { active_form := some [("id", some "f")]
          active_form_index := some 0
          forms := [[("id", some "f")]]
          inputs := [(0, [])]
          form_submit_match := [(0, false)]
          capture_button_text_for_form := some 0
          form_counter := 1 }
        "Go now").form_submit_match 0
      = some (false || strContains (pyLower "Go now")
          (mkScanConfig (some "f") none (some "go")).button_text_contains) :=
  (C4_submit_text_amended (mkScanConfig (some "f") none (some "go")) _ 0 [] "Go now"
    false (by decide)).2.1 rfl rfl

/-- C10: every `</form>` end tag deactivates accumulation: afterwards the
scanner ignores every event (inputs, buttons, text, end tags, non-matching
form starts) until the next `<form>` start tag satisfying the match rule,
and the end tag itself leaves the recorded data untouched. -/
theorem C10_endform_closes (cfg : ScanConfig) (s : ScanState)
    (events : List HtmlEvent)
    (h : ∀ e ∈ events, isMatchingFormStart cfg e = false) :
    feed cfg (handle_endtag s "form") events = handle_endtag s "form"
    ∧ (handle_endtag s "form").active_form = none
    ∧ (handle_endtag s "form").inputs = s.inputs
    ∧ (handle_endtag s "form").form_submit_match = s.form_submit_match
    ∧ (handle_endtag s "form").forms = s.forms := by
  refine ⟨feed_inactive cfg _ events rfl rfl rfl h, rfl, rfl, rfl, rfl⟩

/-- Witness for C10: after `</form>`, an input, a submit button with matching
text, and a non-matching form start all leave the state unchanged. -/
theorem C10_witness :
    feed (mkScanConfig (some "f") none (some "go"))
        (handle_endtag
          { active_form := some [("id", some "f")]
            active_form_index := some 0
            forms := [[("id", some "f")]]
            inputs := [(0, [])]
            form_submit_match := [(0, false)]
            capture_button_text_for_form := some 0
            form_counter := 1 }
          "form")
        [HtmlEvent.startTag "form" [("id", some "g")],
         HtmlEvent.startTag "input" [("name", some "x"), ("value", some "1")],
         HtmlEvent.startTag "button" [],
         HtmlEvent.data "Go now",
         HtmlEvent.endTag "form"]
      = handle_endtag
          { active_form := some [("id", some "f")]
            active_form_index := some 0
            forms := [[("id", some "f")]]
            inputs := [(0, [])]
            form_submit_match := [(0, false)]
            capture_button_text_for_form := some 0
            form_counter := 1 }
          "form" :=
  (C10_endform_closes (mkScanConfig (some "f") none (some "go")) _ _ (by decide)).1

/-- C9: after consuming any document, the number of recorded forms equals the
form counter, the input dict and the flag dict are keyed exactly by
`0 .. counter-1`, and hence every index below the counter can be looked up
in all three structures. -/
theorem C9_scanner_state_invariant (events : List HtmlEvent)
    (fid ac bt : Option String) :
    (feed (mkScanConfig fid ac bt) initState events).forms.length
      = (feed (mkScanConfig fid ac bt) initState events).form_counter
    ∧ (feed (mkScanConfig fid ac bt) initState events).inputs.map Prod.fst
      = List.range (feed (mkScanConfig fid ac bt) initState events).form_counter
    ∧ (feed (mkScanConfig fid ac bt) initState events).form_submit_match.map Prod.fst
      = List.range (feed (mkScanConfig fid ac bt) initState events).form_counter
    ∧ ∀ i, i < (feed (mkScanConfig fid ac bt) initState events).form_counter →
        i < (feed (mkScanConfig fid ac bt) initState events).forms.length
        ∧ (pyLookup (feed (mkScanConfig fid ac bt) initState events).inputs i).isSome
            = true
        ∧ (pyLookup (feed (mkScanConfig fid ac bt) initState events).form_submit_match
            i).isSome = true := by
  have h := scanInv_scan (mkScanConfig fid ac bt) events
  refine ⟨h.forms_len, h.inputs_keys, h.flags_keys, fun i hi => ?_⟩
  refine ⟨by rw [h.forms_len]; exact hi, ?_, ?_⟩
  · rw [pyLookup_isSome_iff, h.inputs_keys, List.mem_range]
    exact hi
  · rw [pyLookup_isSome_iff, h.flags_keys, List.mem_range]
    exact hi

/-- Witness for C9 on a two-form document. -/
theorem C9_witness :
    (pyLookup (feed (mkScanConfig (some "f") (some "login") none) initState
        [HtmlEvent.startTag "form" [("id", some "f")],
         HtmlEvent.startTag "input" [("name", some "x")],
         HtmlEvent.endTag "form",
         HtmlEvent.startTag "form" [("action", some "/login/go")],
         HtmlEvent.endTag "form"]).inputs 1).isSome = true :=
  ((C9_scanner_state_invariant
      [HtmlEvent.startTag "form" [("id", some "f")],
       HtmlEvent.startTag "input" [("name", some "x")],
       HtmlEvent.endTag "form",
       HtmlEvent.startTag "form" [("action", some "/login/go")],
       HtmlEvent.endTag "form"] (some "f") (some "login") none).2.2.2 1
    (by decide)).2.1

/-- C3: the built payload gives each key the value of its highest-precedence
source: a form input is never overwritten by a URL query parameter or a
default; a URL query parameter (first value if duplicated) is never
overwritten by a default; in particular with form input `sessionID=A`, URL
query `?sessionID=B` and default `sessionID=C` the payload holds "A", and
with the form input removed it holds "B". -/
theorem C3_payload_precedence (form_inputs : StrDict) (portal_url : String)
    (extra_fields : StrDict) (query_fields : List String) (k v : String) :
    (k ≠ "" → (form_inputs.map Prod.fst).Nodup → pyLookup form_inputs k = some v →
      pyLookup (merge_form_data form_inputs portal_url extra_fields query_fields) k
        = some v)
    ∧ (∀ vs, pyLookup (payload_from_inputs form_inputs) k = none → k ∈ query_fields →
        pyLookup (parse_qs (urlparse portal_url "" true).query) k = some (v :: vs) →
        pyLookup (merge_form_data form_inputs portal_url extra_fields query_fields) k
          = some v)
    ∧ (pyLookup (payload_add_query (payload_from_inputs form_inputs) portal_url
          query_fields) k = none →
        pyLookup extra_fields k = some v →
        pyLookup (merge_form_data form_inputs portal_url extra_fields query_fields) k
          = some v)
    ∧ pyLookup (merge_form_data [("sessionID", "A")]
        "http://portal.example/?sessionID=B" [("sessionID", "C")] ["sessionID"])
        "sessionID" = some "A"
    ∧ pyLookup (merge_form_data [] "http://portal.example/?sessionID=B"
        [("sessionID", "C")] ["sessionID"]) "sessionID" = some "B" := by
  refine ⟨?_, ?_, ?_, by rfl, by rfl⟩
  · intro hk hnd h
    unfold merge_form_data
    apply defaults_fold_keeps
    have h1 := payload_from_inputs_lookup form_inputs k v hk hnd h
    unfold payload_add_query
    exact query_fold_keeps _ query_fields k v _ h1
  · intro vs hnone hmem hq
    unfold merge_form_data
    apply defaults_fold_keeps
    unfold payload_add_query
    exact query_fold_hits _ query_fields k v vs hq _ hnone hmem
  · intro hnone hextra
    unfold merge_form_data
    exact defaults_fold_hits extra_fields k v _ hnone hextra

/-- Witness for C3: a form-supplied field survives both later stages. -/
theorem C3_witness :
    pyLookup (merge_form_data [("sessionID", "A"), ("pw", "q")]
        "http://portal.example/?sessionID=B&pw=z" [("pw", "C")] ["sessionID", "pw"])
        "pw" = some "q" :=
  (C3_payload_precedence [("sessionID", "A"), ("pw", "q")]
      "http://portal.example/?sessionID=B&pw=z" [("pw", "C")] ["sessionID", "pw"]
      "pw" "q").1 (by decide) (by decide) rfl

/-- C6 counterexample: the whitespace-only marker "   " is set (truthy in
Python) and occurs verbatim in the fetched HTML, yet the engine does not
treat the page as already-online: it goes on to parse and fails with
NoMatchingForm instead of succeeding. -/
theorem C6_counterexample :
    strContains (pyLower "a   b") (pyLower "   ") = true
    ∧ login
        { probe_url := "http://connectivitycheck.gstatic.com/generate_204"
          probe_expected_status := 204
          portal_fallback_url := "http://fallback.example/"
          form_id := some "f"
          form_action_contains := none
          button_text_contains := none
          already_online_marker := some "   "
          default_form_fields := []
          query_fields_from_url := []
          request_timeout := 10 }
        { probe_first := some 500
          fetch_probe := some
            { url := "http://portal.example/"
              text := "a   b"
              content_type := "text/html"
              events := [] }
          fetch_fallback := none
          submit_status := none
          probe_final := none }
      = .error .noMatchingForm :=
  ⟨by decide, by rfl⟩

/-- C6 (amended): with an already-online marker whose trimmed form is
non-empty, if the marker occurs case-insensitively in the fetched portal
HTML the login run terminates with success (exit code 0) performing at most
the probe and the fetch — no parse, build or submit step; a whitespace-only
marker behaves like no marker, and with no marker configured no HTML is ever
treated as an already-online page. -/
theorem C6_already_online_amended (cfg : Config) (env : NetEnv) (m : String)
    (page : HttpPage) (html : String) :
    (cfg.already_online_marker = some m → pyStrip m ≠ "" →
      fetch_portal_page env = some page →
      strContains (pyLower page.text) (pyLower m) = true →
      ∃ acts, login cfg env = .ok (0, acts) ∧
        ∀ a ∈ acts, a = Action.probeReq ∨ a = Action.fetchStep)
    ∧ (cfg.already_online_marker = none → is_online_page cfg html = false) := by
  constructor
  · intro hm hms hfetch hocc
    have honl : is_online_page cfg page.text = true := by
      unfold is_online_page
      rw [hm]
      dsimp only
      have hne : ¬ m = "" := fun he => hms (by rw [he]; rfl)
      rw [if_neg hne]
      exact portal_indicates_online_of_occurs page.text m hms hocc
    by_cases hp : has_internet env.probe_first cfg.probe_expected_status
    · refine ⟨[Action.probeReq], ?_, ?_⟩
      · unfold login
        rw [if_pos hp]
      · intro a ha
        rcases List.mem_cons.mp ha with h | h
        · exact Or.inl h
        · simp at h
    · refine ⟨[Action.probeReq, Action.fetchStep], ?_, ?_⟩
      · unfold login
        rw [if_neg hp, hfetch]
        dsimp only
        rw [honl, if_pos rfl]
      · intro a ha
        rcases List.mem_cons.mp ha with h | h
        · exact Or.inl h
        · rcases List.mem_cons.mp h with h2 | h2
          · exact Or.inr h2
          · simp at h2
  · intro hm
    unfold is_online_page
    rw [hm]

/-- Witness for the amended C6: a Telekom-style "jetzt surfen" marker found
in the fetched page makes the run succeed with only probe and fetch. -/
theorem C6_witness :
    ∃ acts,
      login
        { probe_url := "http://connectivitycheck.gstatic.com/generate_204"
          probe_expected_status := 204
          portal_fallback_url := "https://hotspot.t-mobile.net/"
          form_id := none
          form_action_contains := some "login"
          button_text_contains := some "online gehen"
          already_online_marker := some "jetzt surfen"
          default_form_fields := []
          query_fields_from_url := []
          request_timeout := 10 }
        { probe_first := some 200
          fetch_probe := some
            { url := "https://hotspot.t-mobile.net/welcome"
              text := "<p>Sie koennen Jetzt surfen!</p>"
              content_type := "text/html; charset=utf-8"
              events := [] }
          fetch_fallback := none
          submit_status := none
          probe_final := none }
        = .ok (0, acts) ∧
      ∀ a ∈ acts, a = Action.probeReq ∨ a = Action.fetchStep :=
  (C6_already_online_amended _ _ "jetzt surfen"
      { url := "https://hotspot.t-mobile.net/welcome"
        text := "<p>Sie koennen Jetzt surfen!</p>"
        content_type := "text/html; charset=utf-8"
        events := [] } "").1 rfl (by decide) rfl (by decide)

/-- C2: form selection fails with NoMatchingForm iff the scan recorded zero
matching forms; with some form recorded and a button-text rule configured it
fails with NoMatchingButton iff no recorded form's flag is true; without a
rule it returns the first recorded form, and with a rule it returns the
first (lowest-index) recorded form whose flag is true. -/
theorem C2_form_selection (events : List HtmlEvent) (fid ac bt : Option String) :
    (parse_login_form events fid ac bt = .error .NoMatchingForm ↔
      (feed (mkScanConfig fid ac bt) initState events).forms = [])
    ∧ ((feed (mkScanConfig fid ac bt) initState events).forms ≠ [] →
        (mkScanConfig fid ac bt).button_text_contains = "" →
        parse_login_form events fid ac bt =
          .ok (drop_none_attrs
              ((feed (mkScanConfig fid ac bt) initState events).forms.getD 0 []),
            (pyLookup (feed (mkScanConfig fid ac bt) initState events).inputs 0).getD
              []))
    ∧ ((feed (mkScanConfig fid ac bt) initState events).forms ≠ [] →
        (mkScanConfig fid ac bt).button_text_contains ≠ "" →
        (parse_login_form events fid ac bt = .error .NoMatchingButton ↔
          ∀ kv ∈ (feed (mkScanConfig fid ac bt) initState events).form_submit_match,
            kv.2 = false))
    ∧ (∀ i, (mkScanConfig fid ac bt).button_text_contains ≠ "" →
        pyLookup (feed (mkScanConfig fid ac bt) initState events).form_submit_match i
          = some true →
        (∀ j, j < i →
          pyLookup (feed (mkScanConfig fid ac bt) initState events).form_submit_match
            j ≠ some true) →
        parse_login_form events fid ac bt =
          .ok (drop_none_attrs
              ((feed (mkScanConfig fid ac bt) initState events).forms.getD i []),
            (pyLookup (feed (mkScanConfig fid ac bt) initState events).inputs i).getD
              [])) := by
  have hinv := scanInv_scan (mkScanConfig fid ac bt) events
  have hparse : (feed (mkScanConfig fid ac bt) initState events).forms ≠ [] →
      parse_login_form events fid ac bt =
        match select_index (mkScanConfig fid ac bt)
            (feed (mkScanConfig fid ac bt) initState events) with
        | .error e => .error e
        | .ok idx =>
          .ok (drop_none_attrs
              ((feed (mkScanConfig fid ac bt) initState events).forms.getD idx []),
            (pyLookup (feed (mkScanConfig fid ac bt) initState events).inputs idx).getD
              []) := by
    intro hne
    simp only [parse_login_form]
    rw [if_neg hne]
  refine ⟨?_, ?_, ?_, ?_⟩
  · constructor
    · intro hr
      by_contra hne
      rw [hparse hne] at hr
      cases hsel : select_index (mkScanConfig fid ac bt)
          (feed (mkScanConfig fid ac bt) initState events) with
      | error e =>
        rw [hsel] at hr
        injection hr with he
        exact select_index_ne_NMF _ _ (by rw [hsel, he])
      | ok idx =>
        rw [hsel] at hr
        simp at hr
    · intro hforms
      simp only [parse_login_form]
      rw [if_pos hforms]
  · intro hne hbt
    rw [hparse hne]
    have hsel : select_index (mkScanConfig fid ac bt)
        (feed (mkScanConfig fid ac bt) initState events) = .ok 0 := by
      unfold select_index
      rw [if_pos hbt]
    rw [hsel]
  · intro hne hbt
    rw [hparse hne]
    cases hfil : (feed (mkScanConfig fid ac bt) initState events).form_submit_match.filter
        (fun kv => kv.2) with
    | nil =>
      have hsel : select_index (mkScanConfig fid ac bt)
          (feed (mkScanConfig fid ac bt) initState events) = .error .NoMatchingButton := by
        unfold select_index
        rw [if_neg hbt, hfil]
        rfl
      rw [hsel]
      constructor
      · intro _ kv hkv
        have hall := List.filter_eq_nil_iff.mp hfil kv hkv
        simpa using hall
      · intro _
        rfl
    | cons q rest =>
      have hsel : select_index (mkScanConfig fid ac bt)
          (feed (mkScanConfig fid ac bt) initState events) = .ok q.1 := by
        unfold select_index
        rw [if_neg hbt, hfil]
        rfl
      rw [hsel]
      constructor
      · intro hr
        simp at hr
      · intro hall
        exfalso
        have hqf : q ∈ (feed (mkScanConfig fid ac bt) initState
            events).form_submit_match.filter (fun kv => kv.2) := by
          rw [hfil]
          exact List.mem_cons_self _ _
        have hq := List.mem_filter.mp hqf
        have hfalse := hall q hq.1
        rw [hfalse] at hq
        simp at hq
  · intro i hbt hflag hfirst
    have hne : (feed (mkScanConfig fid ac bt) initState events).forms ≠ [] := by
      have hmem : i ∈ (feed (mkScanConfig fid ac bt) initState
          events).form_submit_match.map Prod.fst := by
        rw [← pyLookup_isSome_iff, hflag]
        rfl
      rw [hinv.flags_keys, List.mem_range] at hmem
      intro he
      have hlen := hinv.forms_len
      rw [he] at hlen
      simp only [List.length_nil] at hlen
      omega
    rw [hparse hne]
    cases hfil : (feed (mkScanConfig fid ac bt) initState events).form_submit_match.filter
        (fun kv => kv.2) with
    | nil =>
      exfalso
      have hmemq : (i, true) ∈ (feed (mkScanConfig fid ac bt) initState
          events).form_submit_match := pyLookup_mem _ _ _ hflag
      have hin : (i, true) ∈ (feed (mkScanConfig fid ac bt) initState
          events).form_submit_match.filter (fun kv => kv.2) :=
        List.mem_filter.mpr ⟨hmemq, rfl⟩
      rw [hfil] at hin
      simp at hin
    | cons q rest =>
      obtain ⟨hlq, hfs⟩ := first_flagged _ 0
        (feed (mkScanConfig fid ac bt) initState events).form_counter
        (by rw [hinv.flags_keys]; exact List.range_eq_range' _) q rest hfil
      have heq : q.1 = i := by
        rcases Nat.lt_trichotomy q.1 i with h | h | h
        · exact absurd hlq (hfirst q.1 h)
        · exact h
        · have hlow := hfs i (Nat.zero_le i) h
          have := hlow.symm.trans hflag
          simp at this
      have hsel : select_index (mkScanConfig fid ac bt)
          (feed (mkScanConfig fid ac bt) initState events) = .ok q.1 := by
        unfold select_index
        rw [if_neg hbt, hfil]
        rfl
      rw [hsel, heq]

/-- Witness for C2: the button-text rule selects the second form, the first
one whose flag is set. -/
theorem C2_witness :
    parse_login_form
        [HtmlEvent.startTag "form" [("action", some "/login/consent")],
         HtmlEvent.startTag "button" [],
         HtmlEvent.data "Consent",
         HtmlEvent.endTag "button",
         HtmlEvent.endTag "form",
         HtmlEvent.startTag "form" [("action", some "/login/go"), ("method", some "POST")],
         HtmlEvent.startTag "input" [("name", some "csrft"), ("value", some "xyz")],
         HtmlEvent.startTag "button" [],
         HtmlEvent.data "Online gehen",
         HtmlEvent.endTag "button",
         HtmlEvent.endTag "form"]
        none (some "login") (some "online gehen")
      = .ok ([("action", "/login/go"), ("method", "POST")], [("csrft", "xyz")]) :=
  (C2_form_selection
      [HtmlEvent.startTag "form" [("action", some "/login/consent")],
       HtmlEvent.startTag "button" [],
       HtmlEvent.data "Consent",
       HtmlEvent.endTag "button",
       HtmlEvent.endTag "form",
       HtmlEvent.startTag "form" [("action", some "/login/go"), ("method", some "POST")],
       HtmlEvent.startTag "input" [("name", some "csrft"), ("value", some "xyz")],
       HtmlEvent.startTag "button" [],
       HtmlEvent.data "Online gehen",
       HtmlEvent.endTag "button",
       HtmlEvent.endTag "form"]
      none (some "login") (some "online gehen")).2.2.2 1 (by decide) (by decide)
    (fun j hj => by
      have hj0 : j = 0 := by omega
      subst hj0
      decide)

end CaptivePortal
